import Mathlib

/-!
Shallow embedding of the CAIDF-Visualization text-to-structured-data pipeline:
the phase classifier and section merger of `src/utils/usePatientData.js`, the
duplicated export-path parser `parseSectionsFromText` of
`src/utils/exportToPDF.js`, and the two heuristic extractors
`src/utils/extractReadinessGrid.js` and `src/utils/extractRiskTrend.js`.

JavaScript strings are modelled as Lean `String`s (lists of characters),
JavaScript numbers as `Nat`/`Int`/`ℚ` as appropriate, and each concrete regex
literal of the source is compiled to an executable character-list matcher.
All definitions are computable so that concrete runs of the pipeline can be
evaluated inside proofs.
-/

namespace CAIDF

/-! ## String primitives (models of the JavaScript built-ins used by the code) -/

/-- Model of the JavaScript regex class `\s` (restricted to the ASCII
whitespace characters, which are the only ones the data contains). -/
def isWS (c : Char) : Bool :=
  c == ' ' || c == '\t' || c == '\n' || c == '\r' || c == '\x0b' || c == '\x0c'

/-- Model of JavaScript's `\w` word-character class `[A-Za-z0-9_]`. -/
def isWordChar (c : Char) : Bool :=
  c.isAlphanum || c == '_'

/-- Lowercase a character list, modelling `String.prototype.toLowerCase` /
the `i` regex flag on the ASCII data this program processes. -/
def lcl (cs : List Char) : List Char := cs.map Char.toLower

/-- Lowercase a string. -/
def lcs (s : String) : String := String.mk (lcl s.toList)

/-- Strip leading and trailing whitespace from a character list. -/
def trimL (cs : List Char) : List Char :=
  ((cs.dropWhile isWS).reverse.dropWhile isWS).reverse

/-- Model of `String.prototype.trim`. -/
def jsTrim (s : String) : String := String.mk (trimL s.toList)

/-- Does `pat` occur as a contiguous sublist of `cs`?  Model of
`String.prototype.includes` and of an unanchored regex literal test. -/
def containsFrom (pat : List Char) : List Char → Bool
  | [] => pat.isEmpty
  | c :: cs => pat.isPrefixOf (c :: cs) || containsFrom pat cs

/-- Model of `s.includes(pat)` (exact, case-sensitive). -/
def strIncludes (s pat : String) : Bool := containsFrom pat.toList s.toList

/-- Case-insensitive unanchored test, modelling `/pat/i.test(s)` for a plain
literal pattern `pat`. -/
def containsCI (pat s : String) : Bool := containsFrom (lcl pat.toList) (lcl s.toList)

/-- Case-insensitive anchored prefix test, modelling `/^pat/i.test(s)` for a
plain literal pattern `pat`. -/
def prefixCI (pat s : String) : Bool := (lcl pat.toList).isPrefixOf (lcl s.toList)

/-- Split a character list at every newline character.  Together with the
trimming and dropping of empty pieces below this models
`String(raw).split(/\n+/)` followed by `.map(s => s.trim()).filter(Boolean)`:
splitting at single newlines instead of newline runs only introduces extra
empty pieces, which the filter removes. -/
def splitNLAux : List Char → List Char → List (List Char)
  | acc, [] => [acc.reverse]
  | acc, c :: cs => if c == '\n' then acc.reverse :: splitNLAux [] cs else splitNLAux (c :: acc) cs

/-- The trimmed non-empty lines of the raw note, modelling
`String(rawNote).split(/\n+/).map(s => s.trim()).filter(Boolean)`. -/
def linesOf (raw : String) : List String :=
  ((splitNLAux [] raw.toList).map (fun l => String.mk (trimL l))).filter (fun s => !(s == ""))

/-! ## Regex-literal matchers of the parser (usePatientData.js / exportToPDF.js) -/

/-- Matcher for `/^Hospital Management:?/i` (the optional trailing `:?` does
not change whether the test succeeds). -/
def isHMHeader (l : String) : Bool := prefixCI "hospital management" l

/-- Matcher for `/^(Discharge Plan|Follow-?Up|Medications)/i`, the terminator
test of the Hospital-Management expansion loop. -/
def isTerminator (l : String) : Bool :=
  prefixCI "discharge plan" l || prefixCI "follow-up" l || prefixCI "followup" l ||
    prefixCI "medications" l

/-- Matcher for `/:/`. -/
def hasColon (l : String) : Bool := l.toList.contains ':'

/-- Matcher for `/^Discharge Plan:?/i`. -/
def isDPHeader (l : String) : Bool := prefixCI "discharge plan" l

/-- Matcher for `/^(Follow-?Up Arrangements|Medications):?/i`. -/
def isFUMeds (l : String) : Bool :=
  prefixCI "follow-up arrangements" l || prefixCI "followup arrangements" l ||
    prefixCI "medications" l

/-- Matcher for `/^Most Responsible Diagnosis$/i` (fully anchored). -/
def isMRD (l : String) : Bool := lcl l.toList == "most responsible diagnosis".toList

/-- Matcher for `/^Consult to Social work/i`. -/
def isAttach (l : String) : Bool := prefixCI "consult to social work" l

/-- Model of `s.replace(/^[–—-]\s*/, "")`: strip one leading dash character
and the whitespace following it. -/
def stripDash (s : String) : String :=
  match s.toList with
  | [] => s
  | c :: rest =>
      if c == '–' || c == '—' || c == '-' then String.mk (rest.dropWhile isWS) else s

/-- Matcher for the discharge-plan override regex used for the
header-without-colon branch:
`/^(Risk for|Decreased|Impaired|Mobility|Swallowing|Communication|Skin\/Wound Care|Education)/i`. -/
def dcOverride1 (l : String) : Bool :=
  prefixCI "risk for" l || prefixCI "decreased" l || prefixCI "impaired" l ||
    prefixCI "mobility" l || prefixCI "swallowing" l || prefixCI "communication" l ||
    prefixCI "skin/wound care" l || prefixCI "education" l

/-- Matcher for the discharge-plan override regex used for ordinary lines:
the same alternation extended with `Substance Use|Medication assistance`. -/
def dcOverride2 (l : String) : Bool :=
  prefixCI "risk for" l || prefixCI "decreased" l || prefixCI "impaired" l ||
    prefixCI "mobility" l || prefixCI "swallowing" l || prefixCI "communication" l ||
    prefixCI "skin/wound care" l || prefixCI "education" l ||
    prefixCI "substance use" l || prefixCI "medication assistance" l

/-- Helper for `line.match(/^([^:]+):\s*(.*)$/)`: split at the first `:`,
requiring at least one character before it. -/
def colonSplitAux : List Char → List Char → Option (List Char × List Char)
  | _, [] => none
  | acc, c :: cs =>
      if c == ':' then (if acc.isEmpty then none else some (acc.reverse, cs))
      else colonSplitAux (c :: acc) cs

/-- Model of `line.match(/^([^:]+):\s*(.*)$/)`, returning the raw capture
groups `m[1]` and `m[2]` on success.  `m[2]` is the text after the first
colon with its leading `\s*` run removed; since `.` does not match `\r`, the
regex fails when a carriage return survives past that run. -/
def jsColonMatch (l : String) : Option (String × String) :=
  match colonSplitAux [] l.toList with
  | none => none
  | some (lab, rest) =>
      let rest' := rest.dropWhile isWS
      if rest'.contains '\r' then none
      else some (String.mk lab, String.mk rest')

/-- Matcher for `/Discipline:\s*(MD|RN|PT|OT|SLP|SW)/i` (unanchored search),
operating on an already lowercased character list. -/
def disciplineScan : List Char → Bool
  | [] => false
  | c :: cs =>
      ("discipline:".toList.isPrefixOf (c :: cs) &&
        ([['m','d'], ['r','n'], ['p','t'], ['o','t'], ['s','l','p'], ['s','w']].any
          (fun t => t.isPrefixOf (((c :: cs).drop 11).dropWhile isWS))))
      || disciplineScan cs

/-- The `Discipline:` classification rule of the `unit` phase. -/
def disciplineRule (l : String) : Bool := disciplineScan (lcl l.toList)

/-! ## Phase taxonomy (usePatientData.js lines 33–111) -/

/-- A phase definition: key, label, timeline order and its ordered rule set. -/
structure Phase where
  key : String
  label : String
  order : Int
  rules : List (String → Bool)

/-- Matcher for `/^Age\/?Gender/i`. -/
def ruleAgeGender (l : String) : Bool := prefixCI "age/gender" l || prefixCI "agegender" l

/-- Matcher for `/^Self-?care\/?Caregiving/i` (both optional characters). -/
def ruleSelfCare (l : String) : Bool :=
  prefixCI "self-care/caregiving" l || prefixCI "self-carecaregiving" l ||
    prefixCI "selfcare/caregiving" l || prefixCI "selfcarecaregiving" l

/-- Matcher for `/^Activities of Daily Living\/?Functional mobility/i`. -/
def ruleADL (l : String) : Bool :=
  prefixCI "activities of daily living/functional mobility" l ||
    prefixCI "activities of daily livingfunctional mobility" l

/-- Matcher for `/^Follow-?Up Arrangements/i`. -/
def ruleFollowUp (l : String) : Bool :=
  prefixCI "follow-up arrangements" l || prefixCI "followup arrangements" l

/-- The static ordered phase taxonomy of `usePatientData.js`. -/
def phasesList : List Phase :=
  [ { key := "patient_info", label := "Patient_info", order := -1,
      rules := [prefixCI "patient name", ruleAgeGender, prefixCI "admission date",
                prefixCI "discharge date", prefixCI "discharge disposition"] },
    { key := "home", label := "Home", order := 0,
      rules := [prefixCI "comorbidities", prefixCI "prior level of function", ruleSelfCare,
                prefixCI "primary providers", prefixCI "consult to social work"] },
    { key := "er", label := "ER", order := 1,
      rules := [prefixCI "overview", prefixCI "most responsible diagnosis",
                prefixCI "hospital course", prefixCI "patient with multiple medical problems"] },
    { key := "unit", label := "Unit", order := 2,
      rules := [prefixCI "hospital management", prefixCI "medical management",
                prefixCI "pain management", prefixCI "substance abuse", prefixCI "wound care",
                prefixCI "chronic risk for constipation", prefixCI "chronic urinary incontinence",
                ruleADL, prefixCI "durable medical equipment", prefixCI "feeding/swallowing",
                prefixCI "risk for ", prefixCI "decreased ", prefixCI "impaired ",
                disciplineRule] },
    { key := "discharge", label := "Discharge", order := 3,
      rules := [prefixCI "discharge plan", prefixCI "substance use", prefixCI "skin/wound care",
                prefixCI "mobility", prefixCI "swallowing", prefixCI "communication",
                prefixCI "medication assistance", prefixCI "education"] },
    { key := "back_home", label := "Back_Home", order := 4,
      rules := [ruleFollowUp, prefixCI "medications"] } ]

/-- The six valid phase keys, in taxonomy order. -/
def allKeys : List String :=
  ["patient_info", "home", "er", "unit", "discharge", "back_home"]

/-- Does a phase's rule set match the line (`p.rules.some(re => re.test(line))`)? -/
def phaseMatches (p : Phase) (line : String) : Bool := p.rules.any (fun r => r line)

/-- The line classifier of `usePatientData.js` (lines 114–119): first phase in
taxonomy order with a matching rule, with the Hospital-Management fallback. -/
def classify (line : String) : String :=
  match phasesList.find? (fun p => phaseMatches p line) with
  | some p => p.key
  | none => if containsCI "hospital management" line then "unit" else "home"

/-! ## Section builder (usePatientData.js lines 122–202) -/

/-- A parsed section row (`rows` entries of `sectionsRaw`). -/
structure SectionRow where
  id : String
  phase : String
  label : String
  content : String
deriving DecidableEq, Repr

/-- Build a row, with `id = "sec_" ++ (number of rows built so far + 1)`. -/
def mkSectionRow (n : Nat) (phase label content : String) : SectionRow :=
  { id := "sec_" ++ toString n, phase := phase, label := label, content := content }

/-- The Hospital-Management expansion (usePatientData.js lines 131–146),
written as a fold whose boolean state records whether the inner absorbing
loop is active.  Every line is emitted exactly once: lines following a
Hospital-Management header are absorbed while they contain a colon and are
not a terminator; the first breaking line is processed like a fresh line. -/
def expandHMAux : Bool → List String → List String
  | _, [] => []
  | absorbing, l :: rest =>
      if absorbing && !isTerminator l && hasColon l then l :: expandHMAux true rest
      else if isHMHeader l then l :: expandHMAux true rest
      else l :: expandHMAux false rest

/-- The expanded line list. -/
def expandHM (ls : List String) : List String := expandHMAux false ls

/-- Model of `rows[rows.length-1].content += " " + line.trim()`. -/
def attachLast : List SectionRow → String → List SectionRow
  | [], _ => []
  | r :: rs, t => { r with content := r.content ++ " " ++ t } :: rs

/-- The main row-building loop of `sectionsRaw` (usePatientData.js lines
152–199).  The accumulator holds the rows built so far in reverse order so
that the attach-to-previous case can modify the most recent row. -/
def buildRowsAux : Bool → List SectionRow → List String → List SectionRow
  | _, acc, [] => acc.reverse
  | inDP, acc, line :: rest =>
      let dp1 := if isDPHeader line then true else inDP
      let dp2 := if isFUMeds line then false else dp1
      if isMRD line then
        let cont := jsTrim (stripDash (rest.headD ""))
        let ph := if dp2 && dcOverride1 line then "discharge" else classify line
        let acc2 := mkSectionRow (acc.length + 1) ph (jsTrim line) cont :: acc
        match rest with
        | [] => acc2.reverse
        | _ :: rest2 => buildRowsAux dp2 acc2 rest2
      else if isAttach line && !acc.isEmpty then
        buildRowsAux dp2 (attachLast acc (jsTrim line)) rest
      else
        let m := jsColonMatch line
        let tstr := (m.map (fun x => x.1)).getD line
        let ph := if dp2 && dcOverride2 tstr then "discharge" else classify line
        let lab := (m.map (fun x => jsTrim x.1)).getD line
        let cont := (m.map (fun x => jsTrim x.2)).getD line
        buildRowsAux dp2 (mkSectionRow (acc.length + 1) ph lab cont :: acc) rest

/-- `sectionsRaw` of `usePatientData.js`: empty for an empty raw note,
otherwise the rows built from the expanded trimmed lines. -/
def sectionsRaw (raw : String) : List SectionRow :=
  if raw == "" then [] else buildRowsAux false [] (expandHM (linesOf raw))

/-! ## Section merger (usePatientData.js lines 204–237) -/

/-- A merged per-phase section. -/
structure MergedSection where
  id : String
  phase : String
  label : String
  content : String
  count : Nat
  hasMeds : Bool
deriving DecidableEq, Repr

/-- Matcher for `/^\s*Medications?\b/i` applied to `(d.label || "").trim()`. -/
def medLabelTest (label : String) : Bool :=
  let t := (lcl (trimL label.toList)).dropWhile isWS
  ("medications".toList.isPrefixOf t &&
     (match t.drop 11 with | [] => true | c :: _ => !isWordChar c)) ||
  ("medication".toList.isPrefixOf t &&
     (match t.drop 10 with | [] => true | c :: _ => !isWordChar c))

/-- The merged bullet block `items.map(d => "• " + label + ": " + content).join("\n")`. -/
def bulletsContent (items : List SectionRow) : String :=
  String.intercalate "\n" (items.map (fun d => "• " ++ d.label ++ ": " ++ d.content))

/-- The merged section for one phase, or `none` when the phase has no rows
(the `continue` of the source loop).  Grouping with `d3.group` keyed by
`d.phase` and then reading the group for `p.key` gives exactly the rows with
that phase in encounter order, i.e. a filter. -/
def mergeF (rows : List SectionRow) (p : Phase) : Option MergedSection :=
  let items := rows.filter (fun r => r.phase == p.key)
  if items.isEmpty then none
  else
    some { id := "merged_" ++ p.key, phase := p.key, label := p.label,
           content := bulletsContent items,
           count := if p.key == "patient_info" || p.key == "nah" then 0 else items.length,
           hasMeds := p.key == "back_home" && items.any (fun d => medLabelTest d.label) }

/-- The merged sections, iterating the taxonomy in order. -/
def mergeRows (rows : List SectionRow) : List MergedSection :=
  phasesList.filterMap (mergeF rows)

/-- `sections` of `usePatientData.js`: empty when there are no raw rows. -/
def sections (raw : String) : List MergedSection :=
  if (sectionsRaw raw).isEmpty then [] else mergeRows (sectionsRaw raw)

/-! ## Event weight calculator (usePatientData.js lines 240–293) -/

/-- A timeline event. -/
structure Event where
  id : String
  phase : String
  phaseLabel : String
  text : String
  value : Int
  idx : Nat
  ts : Int
deriving DecidableEq, Repr

/-- The ordinal phase order `order[s.phase] ?? 0` built from
`Object.fromEntries(phases.map(p => [p.key, p.order ?? 0]))`. -/
def phaseOrder (phase : String) : Int :=
  ((phasesList.find? (fun p => p.key == phase)).map (fun p => p.order)).getD 0

/-- Consume a literal (already lowercased) pattern from the front. -/
def eatL (pat : List Char) (cs : List Char) : Option (List Char) :=
  if pat.isPrefixOf cs then some (cs.drop pat.length) else none

/-- Try the body of `•\s*Discharge\s*Plan:\s*Discharge\s*Plan\b` at the
current position of an already lowercased character list. -/
def ghAt (cs : List Char) : Bool :=
  match eatL "•".toList cs with
  | none => false
  | some r1 =>
      match eatL "discharge".toList (r1.dropWhile isWS) with
      | none => false
      | some r2 =>
          match eatL "plan:".toList (r2.dropWhile isWS) with
          | none => false
          | some r3 =>
              match eatL "discharge".toList (r3.dropWhile isWS) with
              | none => false
              | some r4 =>
                  match eatL "plan".toList (r4.dropWhile isWS) with
                  | none => false
                  | some r5 =>
                      match r5 with
                      | [] => true
                      | c :: _ => !isWordChar c

/-- Scan for `(?:^|\n)•\s*Discharge\s*Plan:\s*Discharge\s*Plan\b` (the
boolean argument records whether the current position starts a line). -/
def ghScan : Bool → List Char → Bool
  | _, [] => false
  | atStart, c :: rest => (atStart && ghAt (c :: rest)) || ghScan (c == '\n') rest

/-- Matcher for `/^Discharge\s*Plan$/i`. -/
def dpExact (t : String) : Bool :=
  match eatL "discharge".toList (lcl t.toList) with
  | none => false
  | some r =>
      match eatL "plan".toList (r.dropWhile isWS) with
      | none => false
      | some r2 => r2.isEmpty

/-- The generic-header test of the `discharge` weight rule
(usePatientData.js lines 259–264). -/
def genericHeader (s : MergedSection) : Bool :=
  ghScan true (lcl s.content.toList) || (dpExact s.label && dpExact s.content)

/-- The per-phase weight policy `weightFor` (usePatientData.js lines 245–271). -/
def weightFor (includeMeds : Bool) (s : MergedSection) : Int :=
  if s.phase == "patient_info" || s.phase == "nah" then 0
  else if s.phase == "back_home" then
    if includeMeds then (s.count : Int)
    else max 0 ((s.count : Int) - (if s.hasMeds then 1 else 0))
  else if s.phase == "discharge" then
    max 0 ((s.count : Int) - (if genericHeader s then 1 else 0))
  else (s.count : Int)

/-- One event record (usePatientData.js lines 274–282). -/
def mkEvent (includeMeds : Bool) (s : MergedSection) : Event :=
  { id := s.id, phase := s.phase, phaseLabel := s.label,
    text := s.label ++ "\n" ++ s.content,
    value := max 0 (weightFor includeMeds s), idx := 0,
    ts := phaseOrder s.phase * 1000 }

/-- `buildEvents(phases, sections, { includeMeds })`. -/
def buildEvents (includeMeds : Bool) (secs : List MergedSection) : List Event :=
  secs.map (mkEvent includeMeds)

/-- The baseline event series (`includeMeds: false`). -/
def events (raw : String) : List Event :=
  if (sections raw).isEmpty then [] else buildEvents false (sections raw)

/-- The with-medications event series (`includeMeds: true`). -/
def eventsWithMeds (raw : String) : List Event :=
  if (sections raw).isEmpty then [] else buildEvents true (sections raw)

/-! ## Date extraction and day enumeration (extractReadinessGrid.js /
extractRiskTrend.js, identical in both files) -/

/-- Numeric value of a digit run, modelling `Number` applied to a `\d+`
capture. -/
def natOfDigits (ds : List Char) : Nat :=
  ds.foldl (fun n c => n * 10 + (c.toNat - '0'.toNat)) 0

/-- Try to match `\s*(\d+)\/(\d+)` at the current position (the tail of the
date regex after its literal anchor), returning the two parsed numbers. -/
def matchDateAfter (cs : List Char) : Option (Nat × Nat) :=
  let cs' := cs.dropWhile isWS
  let d1 := cs'.takeWhile Char.isDigit
  if d1.isEmpty then none
  else
    match cs'.drop d1.length with
    | '/' :: rest =>
        let d2 := rest.takeWhile Char.isDigit
        if d2.isEmpty then none else some (natOfDigits d1, natOfDigits d2)
    | _ => none

/-- Leftmost match of `anchor ++ \s*(\d+)\/(\d+)` in an already lowercased
character list, modelling `text.match(/Anchor:\s*(\d+\/\d+)/i)`. -/
def scanDate (anchor : List Char) : List Char → Option (Nat × Nat)
  | [] => none
  | c :: cs =>
      match (if anchor.isPrefixOf (c :: cs) then matchDateAfter ((c :: cs).drop anchor.length)
             else none) with
      | some md => some md
      | none => scanDate anchor cs

/-- The first `Admission Date:\s*(\d+\/\d+)` match of the note. -/
def matchAdmissionDate (raw : String) : Option (Nat × Nat) :=
  scanDate "admission date:".toList (lcl raw.toList)

/-- The first `Discharge Date:\s*(\d+\/\d+)` match of the note. -/
def matchDischargeDate (raw : String) : Option (Nat × Nat) :=
  scanDate "discharge date:".toList (lcl raw.toList)

/-- The days-per-month table `[31,29,31,30,31,30,31,31,30,31,30,31]` with the
`|| 31` fallback.  For `month = 0` JavaScript reads `days[-1]`, i.e.
`undefined || 31 = 31`; with `Nat` subtraction `0 - 1 = 0` reads `days[0] =
31`, the same value, so the model agrees on every input. -/
def daysInMonth (m : Nat) : Nat :=
  [31, 29, 31, 30, 31, 30, 31, 31, 30, 31, 30, 31].getD (m - 1) 31

/-- Fuel-indexed model of the date-enumeration `while` loop shared by both
extractors.  Each iteration pushes `"m/d"`, steps the day with month
rollover, and stops on the loop guard or on the defensive break
`month > 12 || (month > end.month && day > end.day)`.  The fuel only bounds
the number of iterations; `genDatesFuel_stable` below proves that `500`
units of fuel always suffice, which is the termination argument for the
source loop. -/
def genDatesFuel (em ed : Nat) : Nat → Nat → Nat → List String
  | 0, _, _ => []
  | fuel + 1, m, d =>
      if m < em ∨ (m = em ∧ d ≤ ed) then
        let date := toString m ++ "/" ++ toString d
        if daysInMonth m < d + 1 then
          if 12 < m + 1 ∨ (em < m + 1 ∧ ed < 1) then [date]
          else date :: genDatesFuel em ed fuel (m + 1) 1
        else
          if 12 < m ∨ (em < m ∧ ed < d + 1) then [date]
          else date :: genDatesFuel em ed fuel m (d + 1)
      else []

/-- The generated date range for a parsed admission date `(sm, sd)` and
discharge date `(em, ed)`. -/
def genDates (sm sd em ed : Nat) : List String := genDatesFuel em ed 500 sm sd

/-- Model of `dates.map((date, index) => ...)`: build one grid row per date,
passing the running index to the row builder. -/
def gridRows {ρ : Type} (f : Nat → String → ρ) : Nat → List String → List ρ
  | _, [] => []
  | i, date :: rest => f i date :: gridRows f (i + 1) rest

/-- Lazy capture of `(.*?)` up to the earliest following occurrence of one of
the stop literals (or the end of input), on lowercased characters. -/
def captureUpTo (stops : List (List Char)) : List Char → List Char
  | [] => []
  | c :: rest =>
      if stops.any (fun p => p.isPrefixOf (c :: rest)) then []
      else c :: captureUpTo stops rest

/-- The remainder of the list after the leftmost occurrence of `anchor`. -/
def afterAnchor (anchor : List Char) : List Char → Option (List Char)
  | [] => none
  | c :: cs =>
      if anchor.isPrefixOf (c :: cs) then some ((c :: cs).drop anchor.length)
      else afterAnchor anchor cs

/-- Model of the section-scoped captures such as
`text.match(/Hospital Management:?(.*?)(?:Discharge Plan|$)/is)` followed by
`.toLowerCase()`: the capture starts after the first anchor occurrence (and
an optional colon) and ends at the earliest following stop literal, or at
the end; an absent anchor yields the empty string. -/
def sectionText (startA : String) (stops : List String) (raw : String) : String :=
  match afterAnchor (lcl startA.toList) (lcl raw.toList) with
  | none => ""
  | some rest =>
      let rest2 := match rest with | ':' :: r => r | _ => rest
      String.mk (captureUpTo (stops.map (fun s => lcl s.toList)) rest2)

/-- JavaScript's `Math.round` (round half toward positive infinity). -/
def jsRound (q : ℚ) : ℤ := Int.floor (q + 1 / 2)

/-! ## Readiness extractor scoring (extractReadinessGrid.js lines 68–267) -/

/-- One row of the readiness heat grid (scores are rounded integers clamped
to `[0, 3]`). -/
structure ReadyRow where
  Date : String
  Mobility : ℤ
  WoundCare : ℤ
  MedicalStability : ℤ
  Swallowing : ℤ
  Education : ℤ
  SocialSupport : ℤ
deriving DecidableEq, Repr

/-- The readiness level heuristic `getReadinessLevel(domain, dayIndex,
totalDays)`; the four text arguments are the closed-over lowercased note and
section excerpts (`text`, `hospitalManagementText`, `dischargePlanText`,
`hospitalCourseText`). -/
def getReadinessLevel (allText mgmtText dcPlanText courseText : String)
    (domain : String) (dayIndex totalDays : Nat) : ℤ :=
  let progress : ℚ := (dayIndex : ℚ) / max 1 ((totalDays : ℚ) - 1)
  let score : ℚ :=
    if domain == "Mobility" then
        if strIncludes allText "unsafe for ambulation" || strIncludes allText "unable to transfer" ||
            strIncludes allText "bedbound" || strIncludes allText "2 person assist" then
          if progress < 3/10 then 0 else if progress < 6/10 then 1 else 2
        else if strIncludes allText "minimum assistance" || strIncludes allText "moderate assistance" ||
            strIncludes allText "wheelchair" || strIncludes allText "rolling walker" ||
            strIncludes allText "standby assist" then
          if strIncludes mgmtText "functional mobility" || strIncludes mgmtText "adl training" ||
              strIncludes mgmtText "transfer training" then
            if progress < 4/10 then 1 else if progress < 7/10 then 2 else 5/2
          else if progress < 5/10 then 1 else 2
        else if strIncludes allText "moderately independent" || strIncludes allText "independent" ||
            strIncludes allText "walker" || strIncludes allText "cane" ||
            strIncludes allText "ambulation" then
          if strIncludes dcPlanText "mobility" || strIncludes dcPlanText "exercise program" ||
              strIncludes dcPlanText "hep" then
            if progress < 6/10 then 2 else 14/5
          else if progress < 7/10 then 2 else 3
        else min 3 ((Int.floor (progress * (5/2)) : ℚ))
    else if domain == "WoundCare" then
        if !(strIncludes allText "wound" || strIncludes allText "ulcer" ||
             strIncludes allText "dressing") then 3
        else if strIncludes courseText "new wound" || strIncludes allText "infection" ||
            strIncludes allText "pressure ulcer" then
          if progress < 3/10 then 0 else if progress < 6/10 then 1 else 3/2
        else if strIncludes mgmtText "wound care initiated" || strIncludes mgmtText "dressing" ||
            strIncludes mgmtText "no infection" then
          if strIncludes dcPlanText "wound clinic" || strIncludes dcPlanText "wound care" then
            if progress < 5/10 then 1 else if progress < 8/10 then 2 else 5/2
          else if progress < 6/10 then 3/2 else 2
        else if strIncludes allText "healing" || strIncludes allText "improved" then
          if progress < 7/10 then 2 else 14/5
        else min 3 ((Int.floor (progress * 2) : ℚ) + 1)
    else if domain == "MedicalStability" then
        if strIncludes courseText "hypokalemic" || strIncludes courseText "hypomagnesemic" ||
            strIncludes courseText "electrolyte abnormalities" ||
            strIncludes courseText "acute kidney injury" ||
            strIncludes allText "respiratory failure" || strIncludes allText "icu" ||
            strIncludes allText "rapid response" then
          if strIncludes mgmtText "medical management" || strIncludes mgmtText "electrolyte" then
            if progress < 3/10 then 0 else if progress < 6/10 then 1 else 2
          else if progress < 4/10 then 1/2 else 3/2
        else if strIncludes mgmtText "stable" || strIncludes mgmtText "improved" ||
            strIncludes mgmtText "resolved" || strIncludes mgmtText "controlled" then
          if progress < 5/10 then 3/2 else if progress < 8/10 then 5/2 else 3
        else if strIncludes allText "baseline" || strIncludes allText "stable" then
          if progress < 6/10 then 2 else 3
        else min 3 ((Int.floor (progress * (5/2)) : ℚ))
    else if domain == "Swallowing" then
        if strIncludes allText "aspiration" || strIncludes allText "dysphagia" ||
            strIncludes allText "tube feeds" || strIncludes allText "npo" then
          if progress < 3/10 then 0 else if progress < 6/10 then 1 else 3/2
        else if strIncludes mgmtText "swallowing" || strIncludes mgmtText "feeding" ||
            strIncludes mgmtText "swallow eval" || strIncludes mgmtText "diet" then
          if strIncludes allText "puree" || strIncludes allText "soft" ||
              strIncludes allText "precautions" then
            if strIncludes dcPlanText "swallowing" || strIncludes dcPlanText "diet" then
              if progress < 5/10 then 1 else if progress < 8/10 then 2 else 5/2
            else if progress < 6/10 then 3/2 else 2
          else if strIncludes allText "thin liquids" || strIncludes allText "regular diet" ||
              strIncludes allText "no restrictions" then
            if progress < 7/10 then 2 else 14/5
          else if progress < 6/10 then 3/2 else 2
        else min 3 ((Int.floor (progress * (5/2)) : ℚ))
    else if domain == "Education" then
        if strIncludes dcPlanText "education" || strIncludes allText "education:" then
          if strIncludes allText "reviewed" || strIncludes allText "taught" ||
              strIncludes allText "instructed" then
            if progress < 5/10 then 0 else if progress < 7/10 then 3/2
            else if progress < 9/10 then 5/2 else 3
          else if progress < 6/10 then 1 else 2
        else min 3 ((Int.floor (progress * 2) : ℚ))
    else if domain == "SocialSupport" then
        if strIncludes allText "no caregiver" || strIncludes allText "lives alone" ||
            strIncludes allText "no family" then 0
        else if strIncludes allText "caregiver" &&
            (strIncludes allText "checks in" || strIncludes allText "does not live") then
          if progress < 5/10 then 1 else if progress < 8/10 then 2 else 5/2
        else if strIncludes allText "24/7" || strIncludes allText "full supervision" ||
            strIncludes allText "social work arranged" || strIncludes dcPlanText "supervision" then
          if progress < 6/10 then 2 else if progress < 8/10 then 5/2 else 3
        else if strIncludes allText "caregiver" || strIncludes allText "family" then
          if progress < 5/10 then 3/2 else if progress < 8/10 then 2 else 5/2
        else min 3 ((Int.floor (progress * 2) : ℚ))
    else min 3 ((Int.floor (progress * 2) : ℚ))
  max 0 (min 3 (jsRound score))

/-- One readiness grid row. -/
def readyRowOf (allText mgmtText dcPlanText courseText : String) (totalDays : Nat)
    (i : Nat) (date : String) : ReadyRow :=
  { Date := date
    Mobility := getReadinessLevel allText mgmtText dcPlanText courseText "Mobility" i totalDays
    WoundCare := getReadinessLevel allText mgmtText dcPlanText courseText "WoundCare" i totalDays
    MedicalStability :=
      getReadinessLevel allText mgmtText dcPlanText courseText "MedicalStability" i totalDays
    Swallowing := getReadinessLevel allText mgmtText dcPlanText courseText "Swallowing" i totalDays
    Education := getReadinessLevel allText mgmtText dcPlanText courseText "Education" i totalDays
    SocialSupport :=
      getReadinessLevel allText mgmtText dcPlanText courseText "SocialSupport" i totalDays }

/-- `extractReadinessGrid(dischargeText)`. -/
def extractReadinessGrid (raw : String) : List ReadyRow :=
  match matchAdmissionDate raw, matchDischargeDate raw with
  | some (sm, sd), some (em, ed) =>
      let dates := genDates sm sd em ed
      let allText := lcs raw
      let mgmt := sectionText "Hospital Management" ["Discharge Plan"] raw
      let dcp := sectionText "Discharge Plan" ["Follow-Up", "Education", "Medications"] raw
      let course := sectionText "Hospital Course" ["Prior level", "Self-care"] raw
      gridRows (readyRowOf allText mgmt dcp course dates.length) 0 dates
  | _, _ => []

/-! ## Risk extractor scoring (extractRiskTrend.js lines 71–423) -/

/-- One row of the risk trend grid (scores rounded to one decimal, clamped
to `[0, 3]`). -/
structure RiskRow where
  Date : String
  Mobility : ℚ
  WoundCare : ℚ
  MedicalStability : ℚ
  Swallowing : ℚ
  Education : ℚ
  SocialSupport : ℚ
deriving DecidableEq, Repr

/-- The risk level heuristic `getRiskLevel(domain, dayIndex, totalDays)`. -/
def getRiskLevel (allText mgmtText dcPlanText courseText : String)
    (domain : String) (dayIndex totalDays : Nat) : ℚ :=
  let progress : ℚ := ((totalDays : ℚ) - 1 - (dayIndex : ℚ)) / max 1 ((totalDays : ℚ) - 1)
  let isNearDischarge : Bool := progress < 15/100
  let isDischargeDay : Bool := (dayIndex : Int) == (totalDays : Int) - 1
  let riskScore : ℚ :=
    if domain == "Mobility" then
        if strIncludes allText "unsafe for ambulation" || strIncludes allText "unable to transfer" ||
            strIncludes allText "bedbound" || strIncludes allText "2 person assist" then
          if isDischargeDay then 0
          else if isNearDischarge then (if progress < 8/100 then 0 else 1/2)
          else if progress > 7/10 then 3 else if progress > 4/10 then 2 else 3/2
        else if strIncludes allText "minimum assistance" || strIncludes allText "moderate assistance" ||
            strIncludes allText "wheelchair" || strIncludes allText "rolling walker" ||
            strIncludes allText "standby assist" then
          if strIncludes mgmtText "functional mobility" || strIncludes mgmtText "adl training" ||
              strIncludes mgmtText "transfer training" then
            if isDischargeDay then 0
            else if isNearDischarge then (if progress < 1/10 then 0 else 1/2)
            else if progress > 6/10 then 5/2 else if progress > 3/10 then 2 else 3/2
          else if isDischargeDay then 1/2
          else if progress > 5/10 then 2 else 3/2
        else if strIncludes allText "moderately independent" || strIncludes allText "independent" ||
            strIncludes allText "walker" || strIncludes allText "cane" ||
            strIncludes allText "ambulation" then
          if strIncludes dcPlanText "mobility" || strIncludes dcPlanText "exercise program" ||
              strIncludes dcPlanText "hep" then
            if isDischargeDay then 0
            else if progress > 4/10 then 3/2 else if progress > 2/10 then 1 else 1/2
          else if isDischargeDay then 0
          else if progress > 3/10 then 3/2 else if progress > 15/100 then 4/5 else 3/10
        else if isDischargeDay then 0 else max 0 (progress * (5/2))
    else if domain == "WoundCare" then
        if !(strIncludes allText "wound" || strIncludes allText "ulcer" ||
             strIncludes allText "dressing") then 0
        else if strIncludes courseText "new wound" || strIncludes allText "infection" ||
            strIncludes allText "pressure ulcer" then
          if isDischargeDay then 0
          else if isNearDischarge then (if progress < 1/10 then 0 else 4/5)
          else if progress > 7/10 then 3 else if progress > 4/10 then 2 else 3/2
        else if strIncludes mgmtText "wound care initiated" || strIncludes mgmtText "dressing" ||
            strIncludes mgmtText "no infection" then
          if strIncludes dcPlanText "wound clinic" || strIncludes dcPlanText "wound care" then
            if isDischargeDay then 0
            else if isNearDischarge then (if progress < 12/100 then 0 else 1)
            else if progress > 5/10 then 2 else if progress > 2/10 then 3/2 else 1
          else if isDischargeDay then 1/2
          else if progress > 4/10 then 9/5 else 6/5
        else if strIncludes allText "healing" || strIncludes allText "improved" then
          if isDischargeDay then 0
          else if progress > 3/10 then 3/2 else if progress > 1/10 then 4/5 else 1/5
        else if isDischargeDay then 0 else max 0 (progress * 2 + 1/2)
    else if domain == "MedicalStability" then
        if strIncludes courseText "hypokalemic" || strIncludes courseText "hypomagnesemic" ||
            strIncludes courseText "electrolyte abnormalities" ||
            strIncludes courseText "acute kidney injury" ||
            strIncludes allText "respiratory failure" || strIncludes allText "icu" ||
            strIncludes allText "rapid response" then
          if strIncludes mgmtText "medical management" || strIncludes mgmtText "electrolyte" then
            if isDischargeDay then 0
            else if isNearDischarge then (if progress < 1/10 then 0 else 4/5)
            else if progress > 7/10 then 3 else if progress > 4/10 then 2 else 3/2
          else if isDischargeDay then 1/2
          else if progress > 6/10 then 5/2 else 9/5
        else if strIncludes mgmtText "stable" || strIncludes mgmtText "improved" ||
            strIncludes mgmtText "resolved" || strIncludes mgmtText "controlled" then
          if isDischargeDay then 0
          else if progress > 5/10 then 9/5 else if progress > 2/10 then 1 else 1/2
        else if strIncludes allText "baseline" || strIncludes allText "stable" then
          if isDischargeDay then 0
          else if progress > 4/10 then 3/2 else if progress > 1/10 then 4/5 else 1/5
        else if isDischargeDay then 0 else max 0 (progress * (5/2))
    else if domain == "Swallowing" then
        if strIncludes allText "aspiration" || strIncludes allText "dysphagia" ||
            strIncludes allText "tube feeds" || strIncludes allText "npo" then
          if isDischargeDay then 0
          else if isNearDischarge then (if progress < 1/10 then 0 else 1)
          else if progress > 7/10 then 3 else if progress > 4/10 then 2 else 3/2
        else if strIncludes mgmtText "swallowing" || strIncludes mgmtText "feeding" ||
            strIncludes mgmtText "swallow eval" || strIncludes mgmtText "diet" then
          if strIncludes allText "puree" || strIncludes allText "soft" ||
              strIncludes allText "precautions" then
            if strIncludes dcPlanText "swallowing" || strIncludes dcPlanText "diet" then
              if isDischargeDay then 0
              else if isNearDischarge then (if progress < 12/100 then 0 else 1)
              else if progress > 5/10 then 2 else if progress > 2/10 then 3/2 else 1
            else if isDischargeDay then 1/2
            else if progress > 4/10 then 9/5 else 6/5
          else if strIncludes allText "thin liquids" || strIncludes allText "regular diet" ||
              strIncludes allText "no restrictions" then
            if isDischargeDay then 0
            else if progress > 3/10 then 3/2 else if progress > 1/10 then 4/5 else 1/5
          else if isDischargeDay then 1/2
          else if progress > 4/10 then 9/5 else 6/5
        else if isDischargeDay then 0 else max 0 (progress * (5/2))
    else if domain == "Education" then
        if strIncludes dcPlanText "education" || strIncludes allText "education:" then
          if strIncludes allText "reviewed" || strIncludes allText "taught" ||
              strIncludes allText "instructed" then
            if isDischargeDay then 0
            else if progress > 5/10 then 2 else if progress > 2/10 then 1 else 1/2
          else if isDischargeDay then 1/2
          else if progress > 4/10 then 3/2 else 1
        else if isDischargeDay then 3/10 else max 0 (progress * (3/2))
    else if domain == "SocialSupport" then
        if strIncludes allText "no caregiver" || strIncludes allText "lives alone" ||
            strIncludes allText "no family" then
          if isDischargeDay then 1 else 5/2
        else if strIncludes allText "caregiver" &&
            (strIncludes allText "checks in" || strIncludes allText "does not live") then
          if isDischargeDay then 0
          else if progress > 5/10 then 2 else if progress > 2/10 then 3/2 else 1
        else if strIncludes allText "24/7" || strIncludes allText "full supervision" ||
            strIncludes allText "social work arranged" || strIncludes dcPlanText "supervision" then
          if isDischargeDay then 0
          else if progress > 4/10 then 3/2 else if progress > 2/10 then 1 else 1/2
        else if strIncludes allText "caregiver" || strIncludes allText "family" then
          if isDischargeDay then 0
          else if progress > 5/10 then 9/5 else if progress > 2/10 then 6/5 else 3/5
        else if isDischargeDay then 0 else max 0 (progress * 2)
    else if isDischargeDay then 0 else max 0 (progress * 2)
  max 0 (min 3 ((jsRound (riskScore * 10) : ℚ) / 10))

/-- One risk grid row. -/
def riskRowOf (allText mgmtText dcPlanText courseText : String) (totalDays : Nat)
    (i : Nat) (date : String) : RiskRow :=
  { Date := date
    Mobility := getRiskLevel allText mgmtText dcPlanText courseText "Mobility" i totalDays
    WoundCare := getRiskLevel allText mgmtText dcPlanText courseText "WoundCare" i totalDays
    MedicalStability :=
      getRiskLevel allText mgmtText dcPlanText courseText "MedicalStability" i totalDays
    Swallowing := getRiskLevel allText mgmtText dcPlanText courseText "Swallowing" i totalDays
    Education := getRiskLevel allText mgmtText dcPlanText courseText "Education" i totalDays
    SocialSupport :=
      getRiskLevel allText mgmtText dcPlanText courseText "SocialSupport" i totalDays }

/-- `extractRiskTrendData(dischargeText)`. -/
def extractRiskTrendData (raw : String) : List RiskRow :=
  match matchAdmissionDate raw, matchDischargeDate raw with
  | some (sm, sd), some (em, ed) =>
      let dates := genDates sm sd em ed
      let allText := lcs raw
      let mgmt := sectionText "Hospital Management" ["Discharge Plan"] raw
      let dcp := sectionText "Discharge Plan" ["Follow-Up", "Education", "Medications"] raw
      let course := sectionText "Hospital Course" ["Prior level", "Self-care"] raw
      gridRows (riskRowOf allText mgmt dcp course dates.length) 0 dates
  | _, _ => []

/-! ## The duplicated export-path parser (exportToPDF.js lines 12–198)

The export pipeline re-implements the phase list, classifier, line
expansion and row building verbatim, and re-implements the merger without
the `hasMeds` flag and without the dead `"nah"` test.  The duplicates below
mirror that copy so that the equivalence of both pipelines is a theorem
about two separate definitions. -/

/-- The phase taxonomy as duplicated in `exportToPDF.js` (lines 13–91). -/
def phasesListP : List Phase :=
  [ { key := "patient_info", label := "Patient_info", order := -1,
      rules := [prefixCI "patient name", ruleAgeGender, prefixCI "admission date",
                prefixCI "discharge date", prefixCI "discharge disposition"] },
    { key := "home", label := "Home", order := 0,
      rules := [prefixCI "comorbidities", prefixCI "prior level of function", ruleSelfCare,
                prefixCI "primary providers", prefixCI "consult to social work"] },
    { key := "er", label := "ER", order := 1,
      rules := [prefixCI "overview", prefixCI "most responsible diagnosis",
                prefixCI "hospital course", prefixCI "patient with multiple medical problems"] },
    { key := "unit", label := "Unit", order := 2,
      rules := [prefixCI "hospital management", prefixCI "medical management",
                prefixCI "pain management", prefixCI "substance abuse", prefixCI "wound care",
                prefixCI "chronic risk for constipation", prefixCI "chronic urinary incontinence",
                ruleADL, prefixCI "durable medical equipment", prefixCI "feeding/swallowing",
                prefixCI "risk for ", prefixCI "decreased ", prefixCI "impaired ",
                disciplineRule] },
    { key := "discharge", label := "Discharge", order := 3,
      rules := [prefixCI "discharge plan", prefixCI "substance use", prefixCI "skin/wound care",
                prefixCI "mobility", prefixCI "swallowing", prefixCI "communication",
                prefixCI "medication assistance", prefixCI "education"] },
    { key := "back_home", label := "Back_Home", order := 4,
      rules := [ruleFollowUp, prefixCI "medications"] } ]

/-- The classifier as duplicated in `exportToPDF.js` (lines 93–97). -/
def classifyP (line : String) : String :=
  match phasesListP.find? (fun p => phaseMatches p line) with
  | some p => p.key
  | none => if containsCI "hospital management" line then "unit" else "home"

/-- The Hospital-Management expansion as duplicated in `exportToPDF.js`
(lines 107–122). -/
def expandHMAuxP : Bool → List String → List String
  | _, [] => []
  | absorbing, l :: rest =>
      if absorbing && !isTerminator l && hasColon l then l :: expandHMAuxP true rest
      else if isHMHeader l then l :: expandHMAuxP true rest
      else l :: expandHMAuxP false rest

/-- The expanded line list of the export parser. -/
def expandHMP (ls : List String) : List String := expandHMAuxP false ls

/-- The row-building loop as duplicated in `exportToPDF.js` (lines 130–169). -/
def buildRowsAuxP : Bool → List SectionRow → List String → List SectionRow
  | _, acc, [] => acc.reverse
  | inDP, acc, line :: rest =>
      let dp1 := if isDPHeader line then true else inDP
      let dp2 := if isFUMeds line then false else dp1
      if isMRD line then
        let cont := jsTrim (stripDash (rest.headD ""))
        let ph := if dp2 && dcOverride1 line then "discharge" else classifyP line
        let acc2 := mkSectionRow (acc.length + 1) ph (jsTrim line) cont :: acc
        match rest with
        | [] => acc2.reverse
        | _ :: rest2 => buildRowsAuxP dp2 acc2 rest2
      else if isAttach line && !acc.isEmpty then
        buildRowsAuxP dp2 (attachLast acc (jsTrim line)) rest
      else
        let m := jsColonMatch line
        let tstr := (m.map (fun x => x.1)).getD line
        let ph := if dp2 && dcOverride2 tstr then "discharge" else classifyP line
        let lab := (m.map (fun x => jsTrim x.1)).getD line
        let cont := (m.map (fun x => jsTrim x.2)).getD line
        buildRowsAuxP dp2 (mkSectionRow (acc.length + 1) ph lab cont :: acc) rest

/-- A merged section of the export parser (no `hasMeds` field). -/
structure MergedSectionP where
  id : String
  phase : String
  label : String
  content : String
  count : Nat
deriving DecidableEq, Repr

/-- The export-path merger body (exportToPDF.js lines 181–195): no `"nah"`
test and no `hasMeds` flag. -/
def mergeFP (rows : List SectionRow) (p : Phase) : Option MergedSectionP :=
  let items := rows.filter (fun r => r.phase == p.key)
  if items.isEmpty then none
  else
    some { id := "merged_" ++ p.key, phase := p.key, label := p.label,
           content := bulletsContent items,
           count := if p.key == "patient_info" then 0 else items.length }

/-- The export-path merged sections. -/
def mergeRowsP (rows : List SectionRow) : List MergedSectionP :=
  phasesListP.filterMap (mergeFP rows)

/-- `parseSectionsFromText(dischargeText)` of `exportToPDF.js`. -/
def parseSectionsFromText (raw : String) : List MergedSectionP :=
  if raw == "" then [] else mergeRowsP (buildRowsAuxP false [] (expandHMP (linesOf raw)))

/-! ## Termination measure for the date-enumeration loop and note fixtures -/

/-- Decreasing measure for the date-enumeration loop: each iteration either
increments the day (capped by the days-per-month table) or rolls the month
forward, and the defensive break caps the month at 12. -/
def dateMu (m d : Nat) : Nat := 433 - (m * 33 + min d 33) + 2

/-- The projection of a merged section compared between the live and export
pipelines: phase, label, content and count. -/
def sectionProj (s : MergedSection) : String × String × String × Nat :=
  (s.phase, s.label, s.content, s.count)

/-- The same projection on the export side. -/
def sectionProjP (s : MergedSectionP) : String × String × String × Nat :=
  (s.phase, s.label, s.content, s.count)

/-- The synthetic round-trip note of the specification. -/
def c6note : String :=
  "Patient Name: J. Doe\nAge/Gender: 70/M\nAdmission Date: 5/4\nDischarge Date: 5/5\nComorbidities: diabetes\nHospital Course: stable\nDischarge Plan: Mobility: independent with walker\nFollow-Up Arrangements: PT clinic arranged\nMedications: Lisinopril"

/-- A note whose text contains the substrings `"Admission Date: 5/4"` and
`"Discharge Date: 5/11"` although its first admission-date match is `5/41`. -/
def c4cex : String := "Admission Date: 5/41 and Discharge Date: 5/11"

/-- A note used to instantiate the amended date-coverage property. -/
def c4note : String := "Admission Date: 5/4\nDischarge Date: 5/11"

/-- An 8-day-stay note containing the high-risk mobility keywords. -/
def c5note : String :=
  "Admission Date: 5/4\nDischarge Date: 5/11\nHospital Course: bedbound, unsafe for ambulation"

/-- A minimal note producing a back-home section with a medications row. -/
def c3note : String := "Follow-Up Arrangements: clinic visit\nMedications: Lisinopril"

/-- The merged back-home section produced from `c3note`. -/
def c3section : MergedSection :=
  { id := "merged_back_home", phase := "back_home", label := "Back_Home",
    content := "• Follow-Up Arrangements: clinic visit\n• Medications: Lisinopril",
    count := 2, hasMeds := true }

/-! ## Theorems -/

/-- If all elements before index `i` fail the predicate and the element at
`i` satisfies it, `find?` returns exactly that element. -/
theorem find?_first {α : Type} (p : α → Bool) :
    ∀ (l : List α) (i : Nat) (hi : i < l.length),
      ((l.take i).all (fun a => !p a)) = true → p (l.get ⟨i, hi⟩) = true →
      l.find? p = some (l.get ⟨i, hi⟩) := by
  intro l
  induction l with
  | nil => intro i hi; simp at hi
  | cons a t ih =>
      intro i hi hall hp
      cases i with
      | zero =>
          exact List.find?_cons_of_pos _ hp
      | succ k =>
          have ha : ¬ p a = true := by
            simp [List.take_succ_cons, List.all_cons] at hall
            simp [hall.1]
          rw [List.find?_cons_of_neg _ ha]
          refine ih k (by simpa using hi) ?_ hp
          simp [List.take_succ_cons, List.all_cons] at hall
          simp only [List.all_eq_true]
          intro x hx
          simp [hall.2 x hx]

/-- The classifier always returns one of the six taxonomy keys. -/
theorem classify_mem_allKeys (line : String) : classify line ∈ allKeys := by
  unfold classify
  cases h : phasesList.find? (fun p => phaseMatches p line) with
  | none =>
      by_cases hc : containsCI "hospital management" line = true <;> simp [hc, allKeys]
  | some p =>
      have hp := List.mem_of_find?_eq_some h
      simp only [phasesList, List.mem_cons, List.not_mem_nil, or_false] at hp
      rcases hp with rfl | rfl | rfl | rfl | rfl | rfl <;> simp [allKeys]

/-- C1: for every input line, `classify` returns a valid phase key; it
returns the key of the first phase in taxonomy order having a matching rule
(so a line matching rules of two different phases gets the earlier-declared
phase, regardless of rule order within a phase); and when no rule of any
phase matches it falls back to `"unit"` if the line contains
`"Hospital Management"` (case-insensitively) and `"home"` otherwise. -/
theorem classify_first_match (line : String) :
    classify line ∈ allKeys ∧
    (∀ (i : Nat) (hi : i < phasesList.length),
        ((phasesList.take i).all (fun p => !phaseMatches p line)) = true →
        phaseMatches (phasesList.get ⟨i, hi⟩) line = true →
        classify line = (phasesList.get ⟨i, hi⟩).key) ∧
    ((phasesList.all (fun p => !phaseMatches p line)) = true →
        classify line = if containsCI "hospital management" line then "unit" else "home") := by
  refine ⟨classify_mem_allKeys line, ?_, ?_⟩
  · intro i hi hall hp
    unfold classify
    rw [find?_first (fun p => phaseMatches p line) phasesList i hi hall hp]
  · intro hall
    unfold classify
    have hnone : phasesList.find? (fun p => phaseMatches p line) = none := by
      rw [List.find?_eq_none]
      intro x hx
      have := (List.all_eq_true.mp hall) x hx
      simp at this
      simp [this]
    rw [hnone]

/-- Witness for C1: a line matching the `discharge` phase (index 4) and no
earlier phase is classified `"discharge"`, and a line matching no rule at
all falls back to `"home"`. -/
theorem classify_first_match_witness :
    classify "Mobility: independent with walker" = "discharge" ∧
    classify "totally unrelated text" = "home" := by
  constructor
  · have h := (classify_first_match "Mobility: independent with walker").2.1 4 (by decide)
      (by decide) (by decide)
    exact h.trans (by decide)
  · have h := (classify_first_match "totally unrelated text").2.2 (by decide)
    exact h.trans (by decide)


/-- Any phase chosen by the discharge-plan override or the classifier is a
valid key. -/
theorem phase_choice_mem (c : Bool) (line : String) :
    (if c = true then "discharge" else classify line) ∈ allKeys := by
  by_cases h : c = true
  · simp [h, allKeys]
  · simp only [h, if_false]
    exact classify_mem_allKeys line

theorem attachLast_phase_mem (acc : List SectionRow) (t : String)
    (h : ∀ r ∈ acc, r.phase ∈ allKeys) : ∀ r ∈ attachLast acc t, r.phase ∈ allKeys := by
  cases acc with
  | nil => simp [attachLast]
  | cons a l =>
      intro r hr
      simp only [attachLast, List.mem_cons] at hr
      rcases hr with rfl | hr'
      · exact h a (List.mem_cons_self a l)
      · exact h r (List.mem_cons_of_mem a hr')

theorem buildRowsAux_phase_mem :
    ∀ (n : Nat) (ls : List String), ls.length ≤ n → ∀ (b : Bool) (acc : List SectionRow),
      (∀ r ∈ acc, r.phase ∈ allKeys) → ∀ r ∈ buildRowsAux b acc ls, r.phase ∈ allKeys := by
  intro n
  induction n with
  | zero =>
      intro ls hls b acc hacc r hr
      cases ls with
      | nil =>
          simp only [buildRowsAux, List.mem_reverse] at hr
          exact hacc r hr
      | cons l rest => simp at hls
  | succ n ih =>
      intro ls hls b acc hacc r hr
      cases ls with
      | nil =>
          simp only [buildRowsAux, List.mem_reverse] at hr
          exact hacc r hr
      | cons line rest =>
          simp only [buildRowsAux] at hr
          by_cases hm : isMRD line = true
          · simp only [hm, if_true] at hr
            cases rest with
            | nil =>
                simp only [List.mem_reverse, List.mem_cons] at hr
                rcases hr with rfl | hr'
                · exact phase_choice_mem _ line
                · exact hacc r hr'
            | cons x rest2 =>
                refine ih rest2 (by simp at hls; omega) _ _ ?_ r hr
                intro r' hr'
                simp only [List.mem_cons] at hr'
                rcases hr' with rfl | hr''
                · exact phase_choice_mem _ line
                · exact hacc r' hr''
          · by_cases ha : (isAttach line && !acc.isEmpty) = true
            · simp only [hm, ha, Bool.false_eq_true, if_false, if_true] at hr
              refine ih rest (by simp at hls; omega) _ _ ?_ r hr
              exact attachLast_phase_mem acc _ hacc
            · simp only [hm, ha, Bool.false_eq_true, if_false] at hr
              refine ih rest (by simp at hls; omega) _ _ ?_ r hr
              intro r' hr'
              simp only [List.mem_cons] at hr'
              rcases hr' with rfl | hr''
              · exact phase_choice_mem _ line
              · exact hacc r' hr''

theorem sectionsRaw_phase_mem (raw : String) :
    ∀ r ∈ sectionsRaw raw, r.phase ∈ allKeys := by
  unfold sectionsRaw
  by_cases h : (raw == "") = true
  · simp [h]
  · simp only [h, Bool.false_eq_true, if_false]
    exact buildRowsAux_phase_mem (expandHM (linesOf raw)).length _ le_rfl false [] (by simp)


/-- Sum of a projection over a `filterMap`, with `0` for dropped elements. -/
theorem sum_map_filterMap {α β : Type} (f : α → Option β) (g : β → Nat) :
    ∀ l : List α, ((l.filterMap f).map g).sum = (l.map (fun a => ((f a).map g).getD 0)).sum := by
  intro l
  induction l with
  | nil => simp
  | cons a t ih =>
      cases h : f a with
      | none => simp [List.filterMap_cons, h, ih]
      | some b => simp [List.filterMap_cons, h, ih]

theorem mergeF_term (rows : List SectionRow) (p : Phase) :
    ((mergeF rows p).map (fun s => s.count)).getD 0 =
      if (p.key == "patient_info" || p.key == "nah") = true then 0
      else (rows.filter (fun r => r.phase == p.key)).length := by
  unfold mergeF
  by_cases h : (rows.filter (fun r => r.phase == p.key)).isEmpty = true
  · rw [List.isEmpty_iff] at h
    simp [h]
  · simp only [Bool.not_eq_true] at h
    simp only [h, Bool.false_eq_true, if_false, Option.map_some, Option.getD_some]
    rfl

theorem mergeRows_countSum (rows : List SectionRow) :
    ((mergeRows rows).map (fun s => s.count)).sum =
      (rows.filter (fun r => r.phase == "home")).length +
      (rows.filter (fun r => r.phase == "er")).length +
      (rows.filter (fun r => r.phase == "unit")).length +
      (rows.filter (fun r => r.phase == "discharge")).length +
      (rows.filter (fun r => r.phase == "back_home")).length := by
  rw [mergeRows, sum_map_filterMap]
  simp only [phasesList, List.map_cons, List.map_nil, List.sum_cons, List.sum_nil]
  rw [mergeF_term, mergeF_term, mergeF_term, mergeF_term, mergeF_term, mergeF_term]
  simp
  omega

theorem five_filter_sum (rows : List SectionRow) (h : ∀ r ∈ rows, r.phase ∈ allKeys) :
    (rows.filter (fun r => r.phase == "home")).length +
      (rows.filter (fun r => r.phase == "er")).length +
      (rows.filter (fun r => r.phase == "unit")).length +
      (rows.filter (fun r => r.phase == "discharge")).length +
      (rows.filter (fun r => r.phase == "back_home")).length =
      (rows.filter (fun r => r.phase != "patient_info")).length := by
  induction rows with
  | nil => simp
  | cons r rs ih =>
      have hr := h r (List.mem_cons_self r rs)
      have ih' := ih (fun x hx => h x (List.mem_cons_of_mem r hx))
      simp only [allKeys, List.mem_cons, List.not_mem_nil, or_false] at hr
      rcases hr with h1 | h1 | h1 | h1 | h1 | h1 <;>
        simp only [List.filter_cons, h1] <;> simp <;> omega

/-- C2: for every raw note, the sum of `count` over all merged sections
equals the number of parsed rows whose phase is not `patient_info`: the
merge neither drops nor double-counts a non-`patient_info` row, and the
`patient_info` section's count is forced to `0`. -/
theorem merger_total_count (raw : String) :
    (((sections raw).map (fun s => s.count)).sum =
      ((sectionsRaw raw).filter (fun r => r.phase != "patient_info")).length) ∧
    ∀ s ∈ sections raw, s.phase = "patient_info" → s.count = 0 := by
  constructor
  · unfold sections
    by_cases h : (sectionsRaw raw).isEmpty = true
    · rw [List.isEmpty_iff] at h
      simp [h]
    · simp only [h, Bool.false_eq_true, if_false]
      rw [mergeRows_countSum, five_filter_sum (sectionsRaw raw) (sectionsRaw_phase_mem raw)]
  · intro s hs hp
    unfold sections at hs
    by_cases h : (sectionsRaw raw).isEmpty = true
    · simp [h] at hs
    · simp only [h, Bool.false_eq_true, if_false] at hs
      unfold mergeRows at hs
      rw [List.mem_filterMap] at hs
      obtain ⟨p, hpmem, hfp⟩ := hs
      unfold mergeF at hfp
      by_cases he : ((sectionsRaw raw).filter (fun r => r.phase == p.key)).isEmpty = true
      · simp [he] at hfp
      · simp only [he, Bool.false_eq_true, if_false, Option.some_inj] at hfp
        subst hfp
        simp only at hp
        simp only [hp]
        rfl

/-- Witness for C2: the first merged section of the synthetic note is the
`patient_info` section and its count is `0` although it merges four rows. -/
theorem merger_total_count_witness :
    ((sections c6note).headD
      { id := "", phase := "", label := "", content := "", count := 1, hasMeds := false }).count
      = 0 :=
  (merger_total_count c6note).2 _ (by decide) (by decide)


/-- A merged `back_home` section always has at least one row behind it. -/
theorem sections_back_home_pos (raw : String) (s : MergedSection)
    (hs : s ∈ sections raw) (hp : s.phase = "back_home") : 1 ≤ s.count := by
  unfold sections at hs
  by_cases h : (sectionsRaw raw).isEmpty = true
  · simp [h] at hs
  · simp only [h, Bool.false_eq_true, if_false] at hs
    unfold mergeRows at hs
    rw [List.mem_filterMap] at hs
    obtain ⟨p, hpmem, hfp⟩ := hs
    unfold mergeF at hfp
    by_cases he : ((sectionsRaw raw).filter (fun r => r.phase == p.key)).isEmpty = true
    · simp [he] at hfp
    · simp only [he, Bool.false_eq_true, if_false, Option.some_inj] at hfp
      subst hfp
      simp only at hp
      simp only [hp]
      rw [Bool.not_eq_true, List.isEmpty_eq_false] at he
      have hlen := List.length_pos.mpr he
      rw [hp] at hlen
      simp only [show (("back_home" : String) == "patient_info" || ("back_home" : String) == "nah") = false from rfl, Bool.false_eq_true, if_false]
      omega

theorem sections_nonempty_of_mem (raw : String) (s : MergedSection)
    (hs : s ∈ sections raw) : (sections raw).isEmpty = false :=
  List.isEmpty_eq_false.mpr (List.ne_nil_of_mem hs)

/-- C3: for every raw note and every merged `back_home` section, the event
value computed with `includeMeds = true` minus the value computed with
`includeMeds = false` is `0` or `1`, and it is `1` exactly when the merged
section's `hasMeds` flag is set; both events are the back-home entries of
the two event series. -/
theorem meds_delta (raw : String) (s : MergedSection)
    (hs : s ∈ sections raw) (hp : s.phase = "back_home") :
    ((mkEvent true s).value - (mkEvent false s).value = if s.hasMeds then 1 else 0) ∧
    ((mkEvent true s).value - (mkEvent false s).value = 0 ∨
      (mkEvent true s).value - (mkEvent false s).value = 1) ∧
    (((mkEvent true s).value - (mkEvent false s).value = 1) ↔ s.hasMeds = true) ∧
    mkEvent true s ∈ eventsWithMeds raw ∧ mkEvent false s ∈ events raw := by
  have hcount := sections_back_home_pos raw s hs hp
  have hne := sections_nonempty_of_mem raw s hs
  have hb1 : (s.phase == "patient_info" || s.phase == "nah") = false := by
    rw [hp]; rfl
  have hb2 : (s.phase == "back_home") = true := by
    rw [hp]; rfl
  have hval : (mkEvent true s).value - (mkEvent false s).value
      = if s.hasMeds then 1 else 0 := by
    simp only [mkEvent, weightFor, hb1, hb2, Bool.false_eq_true, if_false, if_true]
    by_cases hm : s.hasMeds = true
    · simp only [hm, if_true]
      omega
    · simp only [hm, Bool.false_eq_true, if_false, if_true]
      omega
  refine ⟨hval, ?_, ?_, ?_, ?_⟩
  · by_cases hm : s.hasMeds = true <;> simp [hval, hm]
  · by_cases hm : s.hasMeds = true <;> simp [hval, hm]
  · simp only [eventsWithMeds, hne, Bool.false_eq_true, if_false, buildEvents]
    exact List.mem_map_of_mem _ hs
  · simp only [events, hne, Bool.false_eq_true, if_false, buildEvents]
    exact List.mem_map_of_mem _ hs

/-- Witness for C3: on a two-row back-home note the with-medications event
exceeds the baseline event by exactly one. -/
theorem meds_delta_witness :
    (mkEvent true c3section).value - (mkEvent false c3section).value = 1 := by
  have h := (meds_delta c3note c3section (by decide) (by decide)).1
  exact h.trans (by decide)


/-- The non-value fields of an event do not depend on `includeMeds`. -/
theorem mkEvent_nonvalue_frame (s : MergedSection) :
    (mkEvent true s).id = (mkEvent false s).id ∧
    (mkEvent true s).phase = (mkEvent false s).phase ∧
    (mkEvent true s).phaseLabel = (mkEvent false s).phaseLabel ∧
    (mkEvent true s).text = (mkEvent false s).text ∧
    (mkEvent true s).idx = (mkEvent false s).idx ∧
    (mkEvent true s).ts = (mkEvent false s).ts :=
  ⟨rfl, rfl, rfl, rfl, rfl, rfl⟩

theorem mkEvent_eq_of_not_back_home (s : MergedSection) (h : s.phase ≠ "back_home") :
    mkEvent true s = mkEvent false s := by
  have hb : (s.phase == "back_home") = false := by
    rw [beq_eq_false_iff_ne]
    exact h
  unfold mkEvent weightFor
  rw [hb]
  simp

/-- C10: the two event series have the same length; at every index the two
events agree on `id`, `phase`, `phaseLabel`, `text`, `idx` and `ts`; and
whenever the phase is not `back_home` the events are identical in every
field, so the `includeMeds` flag can change at most the `value` of the
`back_home` event. -/
theorem includeMeds_frame (raw : String) :
    (events raw).length = (eventsWithMeds raw).length ∧
    ∀ (i : Nat) (h0 : i < (events raw).length) (h1 : i < (eventsWithMeds raw).length),
      ((eventsWithMeds raw).get ⟨i, h1⟩).id = ((events raw).get ⟨i, h0⟩).id ∧
      ((eventsWithMeds raw).get ⟨i, h1⟩).phase = ((events raw).get ⟨i, h0⟩).phase ∧
      ((eventsWithMeds raw).get ⟨i, h1⟩).phaseLabel = ((events raw).get ⟨i, h0⟩).phaseLabel ∧
      ((eventsWithMeds raw).get ⟨i, h1⟩).text = ((events raw).get ⟨i, h0⟩).text ∧
      ((eventsWithMeds raw).get ⟨i, h1⟩).idx = ((events raw).get ⟨i, h0⟩).idx ∧
      ((eventsWithMeds raw).get ⟨i, h1⟩).ts = ((events raw).get ⟨i, h0⟩).ts ∧
      (((events raw).get ⟨i, h0⟩).phase ≠ "back_home" →
        (eventsWithMeds raw).get ⟨i, h1⟩ = (events raw).get ⟨i, h0⟩) := by
  by_cases h : (sections raw).isEmpty = true
  · constructor
    · simp [events, eventsWithMeds, h]
    · intro i h0 h1
      simp [events, h] at h0
  · have hev : events raw = (sections raw).map (mkEvent false) := by
      simp [events, h, buildEvents]
    have hevm : eventsWithMeds raw = (sections raw).map (mkEvent true) := by
      simp [eventsWithMeds, h, buildEvents]
    constructor
    · rw [hev, hevm]
      simp
    · intro i h0 h1
      have h0' : i < (sections raw).length := by
        rw [hev] at h0
        simpa using h0
      have e0 : (events raw).get ⟨i, h0⟩ = mkEvent false ((sections raw).get ⟨i, h0'⟩) := by
        simp [hev]
      have e1 : (eventsWithMeds raw).get ⟨i, h1⟩ = mkEvent true ((sections raw).get ⟨i, h0'⟩) := by
        simp [hevm]
      rw [e0, e1]
      refine ⟨rfl, rfl, rfl, rfl, rfl, rfl, ?_⟩
      intro hph
      exact mkEvent_eq_of_not_back_home _ hph

/-- Witness for C10: on the synthetic note the `home` events of both series
(index 1) coincide. -/
theorem includeMeds_frame_witness :
    (eventsWithMeds c6note).get ⟨1, by decide⟩ = (events c6note).get ⟨1, by decide⟩ := by
  have h := ((includeMeds_frame c6note).2 1 (by decide) (by decide)).2.2.2.2.2.2
  exact h (by decide)


/-- C7: if the admission-date or the discharge-date anchor has no match, both
extractors return the empty sequence (and, being total Lean functions, raise
no exception); and on the empty raw note the section pipeline returns empty
rows, sections, events and with-medication events. -/
theorem missing_anchors_empty (raw : String) :
    ((matchAdmissionDate raw = none ∨ matchDischargeDate raw = none) →
      extractReadinessGrid raw = [] ∧ extractRiskTrendData raw = []) ∧
    (sectionsRaw "" = [] ∧ sections "" = [] ∧ events "" = [] ∧ eventsWithMeds "" = []) := by
  constructor
  · intro h
    rcases h with h | h
    · constructor
      · unfold extractReadinessGrid
        rw [h]
      · unfold extractRiskTrendData
        rw [h]
    · constructor
      · unfold extractReadinessGrid
        rw [h]
        cases hA : matchAdmissionDate raw with
        | none => rfl
        | some p => cases p; rfl
      · unfold extractRiskTrendData
        rw [h]
        cases hA : matchAdmissionDate raw with
        | none => rfl
        | some p => cases p; rfl
  · exact ⟨rfl, rfl, rfl, rfl⟩

/-- Witness for C7: a note with no date anchors yields empty grids. -/
theorem missing_anchors_empty_witness :
    extractReadinessGrid "no dates here" = [] ∧ extractRiskTrendData "no dates here" = [] :=
  (missing_anchors_empty "no dates here").1 (Or.inl (by decide))


/-- The days-per-month table never exceeds 31. -/
theorem daysInMonth_le (m : Nat) : daysInMonth m ≤ 31 := by
  unfold daysInMonth
  match m with
  | 0 => decide
  | 1 => decide
  | 2 => decide
  | 3 => decide
  | 4 => decide
  | 5 => decide
  | 6 => decide
  | 7 => decide
  | 8 => decide
  | 9 => decide
  | 10 => decide
  | 11 => decide
  | 12 => decide
  | n + 13 =>
      have h12 : ([31, 29, 31, 30, 31, 30, 31, 31, 30, 31, 30, 31] : List Nat).length ≤ n + 13 - 1 := by
        simp only [List.length_cons, List.length_nil]
        omega
      rw [List.getD_eq_default _ _ h12]

theorem genDatesFuel_congr (em ed : Nat) :
    ∀ (n m d f g : Nat), dateMu m d ≤ n → dateMu m d ≤ f → dateMu m d ≤ g →
      genDatesFuel em ed f m d = genDatesFuel em ed g m d := by
  intro n
  induction n with
  | zero =>
      intro m d f g hn _ _
      unfold dateMu at hn
      omega
  | succ n ih =>
      intro m d f g hn hf hg
      cases f with
      | zero => unfold dateMu at hf; omega
      | succ f' =>
          cases g with
          | zero => unfold dateMu at hg; omega
          | succ g' =>
              simp only [genDatesFuel]
              by_cases h1 : m < em ∨ (m = em ∧ d ≤ ed)
              · simp only [h1, if_true]
                by_cases hroll : daysInMonth m < d + 1
                · simp only [hroll, if_true]
                  by_cases hbr : 12 < m + 1 ∨ (em < m + 1 ∧ ed < 1)
                  · simp only [hbr, if_true]
                  · simp only [hbr, if_false]
                    have hrec := ih (m + 1) 1 f' g'
                      (by unfold dateMu at hn ⊢; omega)
                      (by unfold dateMu at hf ⊢; omega)
                      (by unfold dateMu at hg ⊢; omega)
                    rw [hrec]
                · simp only [hroll, if_false]
                  by_cases hbr : 12 < m ∨ (em < m ∧ ed < d + 1)
                  · simp only [hbr, if_true]
                  · simp only [hbr, if_false]
                    have hd31 : daysInMonth m ≤ 31 := daysInMonth_le m
                    have hrec := ih m (d + 1) f' g'
                      (by unfold dateMu at hn ⊢; omega)
                      (by unfold dateMu at hf ⊢; omega)
                      (by unfold dateMu at hg ⊢; omega)
                    rw [hrec]
              · simp only [h1, if_false]

theorem dateMu_le_500 (m d : Nat) : dateMu m d ≤ 500 := by
  unfold dateMu
  omega

theorem genDatesFuel_length (em ed : Nat) :
    ∀ (f : Nat) (m d : Nat), (genDatesFuel em ed f m d).length ≤ f := by
  intro f
  induction f with
  | zero => intro m d; simp [genDatesFuel]
  | succ f ih =>
      intro m d
      simp only [genDatesFuel]
      by_cases h1 : m < em ∨ (m = em ∧ d ≤ ed)
      · simp only [h1, if_true]
        by_cases hroll : daysInMonth m < d + 1
        · simp only [hroll, if_true]
          by_cases hbr : 12 < m + 1 ∨ (em < m + 1 ∧ ed < 1)
          · simp only [hbr, if_true, List.length_cons, List.length_nil]
            omega
          · simp only [hbr, if_false, List.length_cons]
            have := ih (m + 1) 1
            omega
        · simp only [hroll, if_false]
          by_cases hbr : 12 < m ∨ (em < m ∧ ed < d + 1)
          · simp only [hbr, if_true, List.length_cons, List.length_nil]
            omega
          · simp only [hbr, if_false, List.length_cons]
            have := ih m (d + 1)
            omega
      · simp only [h1, if_false, List.length_nil]
        omega

theorem gridRows_length {ρ : Type} (f : Nat → String → ρ) :
    ∀ (dates : List String) (i : Nat), (gridRows f i dates).length = dates.length := by
  intro dates
  induction dates with
  | nil => intro i; rfl
  | cons d t ih => intro i; simp [gridRows, ih]

/-- C8: the day-enumeration loop of both extractors terminates on every
input: `500` fuel units always reach the loop's fixpoint (more fuel never
changes the generated date list), and consequently both extractors return
finite grids of at most `500` rows for every input text, malformed dates
included. -/
theorem date_loop_terminates :
    (∀ (em ed m d fuel : Nat), 500 ≤ fuel →
        genDatesFuel em ed fuel m d = genDates m d em ed) ∧
    ∀ raw : String,
      (extractReadinessGrid raw).length ≤ 500 ∧ (extractRiskTrendData raw).length ≤ 500 := by
  constructor
  · intro em ed m d fuel hfuel
    unfold genDates
    exact genDatesFuel_congr em ed (dateMu m d) m d fuel 500 le_rfl
      (le_trans (dateMu_le_500 m d) hfuel) (dateMu_le_500 m d)
  · intro raw
    constructor
    · unfold extractReadinessGrid
      cases hA : matchAdmissionDate raw with
      | none => simp
      | some p =>
          cases hD : matchDischargeDate raw with
          | none => cases p; simp
          | some q =>
              cases p with
              | mk sm sd =>
                  cases q with
                  | mk em ed =>
                      simp only []
                      rw [gridRows_length]
                      exact genDatesFuel_length em ed 500 sm sd
    · unfold extractRiskTrendData
      cases hA : matchAdmissionDate raw with
      | none => simp
      | some p =>
          cases hD : matchDischargeDate raw with
          | none => cases p; simp
          | some q =>
              cases p with
              | mk sm sd =>
                  cases q with
                  | mk em ed =>
                      simp only []
                      rw [gridRows_length]
                      exact genDatesFuel_length em ed 500 sm sd

/-- Witness for C8: with surplus fuel the loop for a concrete malformed
range (admission `2/30`, discharge `1/2`) produces the same list as the
fixed-fuel run. -/
theorem date_loop_terminates_witness :
    genDatesFuel 1 2 740 2 30 = genDates 2 30 1 2 :=
  date_loop_terminates.1 1 2 2 30 740 (by decide)


/-- The `Date` column of a readiness grid is exactly the generated date list. -/
theorem gridRows_map_Date_ready (a b c d : String) (n : Nat) :
    ∀ (dates : List String) (i : Nat),
      ((gridRows (readyRowOf a b c d n) i dates).map (fun r => r.Date)) = dates := by
  intro dates
  induction dates with
  | nil => intro i; rfl
  | cons x t ih => intro i; simp [gridRows, readyRowOf, ih]

theorem gridRows_map_Date_risk (a b c d : String) (n : Nat) :
    ∀ (dates : List String) (i : Nat),
      ((gridRows (riskRowOf a b c d n) i dates).map (fun r => r.Date)) = dates := by
  intro dates
  induction dates with
  | nil => intro i; rfl
  | cons x t ih => intro i; simp [gridRows, riskRowOf, ih]

/-- Counterexample to C4 as stated: this text contains the substrings
`"Admission Date: 5/4"` and `"Discharge Date: 5/11"`, yet both extractors
return zero rows, because the admission-date regex greedily matches `5/41`. -/
theorem grid_date_coverage_cex :
    strIncludes c4cex "Admission Date: 5/4" = true ∧
    strIncludes c4cex "Discharge Date: 5/11" = true ∧
    (extractReadinessGrid c4cex).length = 0 ∧
    (extractRiskTrendData c4cex).length = 0 := by
  refine ⟨by decide, by decide, ?_, ?_⟩
  · decide
  · decide

/-- C4 (amended): for every input text whose first `Admission Date:` match
parses to `5/4` and whose first `Discharge Date:` match parses to `5/11`,
both extractors return exactly 8 rows whose `Date` fields are
`5/4 … 5/11` in ascending order. -/
theorem grid_date_coverage_amended (raw : String)
    (h1 : matchAdmissionDate raw = some (5, 4))
    (h2 : matchDischargeDate raw = some (5, 11)) :
    (extractReadinessGrid raw).map (fun r => r.Date) =
      ["5/4", "5/5", "5/6", "5/7", "5/8", "5/9", "5/10", "5/11"] ∧
    (extractRiskTrendData raw).map (fun r => r.Date) =
      ["5/4", "5/5", "5/6", "5/7", "5/8", "5/9", "5/10", "5/11"] := by
  constructor
  · unfold extractReadinessGrid
    rw [h1, h2]
    simp only []
    rw [gridRows_map_Date_ready]
    decide
  · unfold extractRiskTrendData
    rw [h1, h2]
    simp only []
    rw [gridRows_map_Date_risk]
    decide

/-- Witness for C4 (amended): a concrete note with those anchor dates. -/
theorem grid_date_coverage_amended_witness :
    (extractReadinessGrid c4note).map (fun r => r.Date) =
      ["5/4", "5/5", "5/6", "5/7", "5/8", "5/9", "5/10", "5/11"] :=
  (grid_date_coverage_amended c4note (by decide) (by decide)).1


/-- The `Mobility` column of the risk grid at index `k` is the risk level of
day `i + k`. -/
theorem gridRows_map_Mobility_getD (a b c d : String) (n : Nat) :
    ∀ (dates : List String) (i k : Nat), k < dates.length →
      ((gridRows (riskRowOf a b c d n) i dates).map (fun r => r.Mobility)).getD k 0 =
        getRiskLevel a b c d "Mobility" (i + k) n := by
  intro dates
  induction dates with
  | nil => intro i k hk; simp at hk
  | cons x t ih =>
      intro i k hk
      cases k with
      | zero => simp [gridRows, riskRowOf]
      | succ k' =>
          simp only [gridRows, List.map_cons, List.getD_cons_succ]
          rw [ih (i + 1) k' (by simpa using hk)]
          congr 1
          omega

theorem riskLevel_mobility_high_start (A B C D : String)
    (hu : strIncludes A "unsafe for ambulation" = true) :
    getRiskLevel A B C D "Mobility" 0 8 = 3 := by
  unfold getRiskLevel
  simp only [hu, Bool.true_or, eq_self_iff_true, if_true,
    show (("Mobility" : String) == "Mobility") = true from rfl]
  norm_num [jsRound]

theorem riskLevel_mobility_high_end (A B C D : String)
    (hu : strIncludes A "unsafe for ambulation" = true) :
    getRiskLevel A B C D "Mobility" 7 8 = 0 := by
  unfold getRiskLevel
  simp only [hu, Bool.true_or, eq_self_iff_true, if_true,
    show (("Mobility" : String) == "Mobility") = true from rfl]
  norm_num [jsRound]

/-- Counterexample to C5 as stated: on this note containing `"bedbound"` and
`"unsafe for ambulation"` with an 8-day stay, the day-0 Mobility risk is `3`,
not within `[1.5, 2]`, while the day-7 (discharge-day) risk is `0`. -/
theorem risk_bedbound_cex :
    strIncludes (lcs c5note) "bedbound" = true ∧
    strIncludes (lcs c5note) "unsafe for ambulation" = true ∧
    (extractRiskTrendData c5note).length = 8 ∧
    ((extractRiskTrendData c5note).map (fun r => r.Mobility)).getD 0 0 = 3 ∧
    ¬(3/2 ≤ ((extractRiskTrendData c5note).map (fun r => r.Mobility)).getD 0 0 ∧
       ((extractRiskTrendData c5note).map (fun r => r.Mobility)).getD 0 0 ≤ 2) ∧
    ((extractRiskTrendData c5note).map (fun r => r.Mobility)).getD 7 0 = 0 := by
  have hb : strIncludes (lcs c5note) "bedbound" = true := by decide
  have hu : strIncludes (lcs c5note) "unsafe for ambulation" = true := by decide
  have h8 : (extractRiskTrendData c5note).length = 8 := by decide
  have h0 : ((extractRiskTrendData c5note).map (fun r => r.Mobility)).getD 0 0 = 3 := by
    unfold extractRiskTrendData
    rw [show matchAdmissionDate c5note = some (5, 4) from by decide,
        show matchDischargeDate c5note = some (5, 11) from by decide]
    simp only []
    rw [gridRows_map_Mobility_getD _ _ _ _ _ _ 0 0 (by decide)]
    rw [show (genDates 5 4 5 11).length = 8 from by decide]
    exact riskLevel_mobility_high_start _ _ _ _ hu
  have h7 : ((extractRiskTrendData c5note).map (fun r => r.Mobility)).getD 7 0 = 0 := by
    unfold extractRiskTrendData
    rw [show matchAdmissionDate c5note = some (5, 4) from by decide,
        show matchDischargeDate c5note = some (5, 11) from by decide]
    simp only []
    rw [gridRows_map_Mobility_getD _ _ _ _ _ _ 0 7 (by decide)]
    rw [show (genDates 5 4 5 11).length = 8 from by decide]
    exact riskLevel_mobility_high_end _ _ _ _ hu
  refine ⟨hb, hu, h8, h0, ?_, h7⟩
  rw [h0]
  norm_num

/-- C5 (amended): for every note containing the substrings `"bedbound"` and
`"unsafe for ambulation"` (in its lowercased text) whose extracted stay
spans 8 days, the Mobility risk of `extractRiskTrendData` is `3` on day
index 0 (admission day, not 1.5–2 as originally claimed) and exactly `0` on
day index 7 (discharge day). -/
theorem risk_bedbound_amended (raw : String)
    (_hb : strIncludes (lcs raw) "bedbound" = true)
    (hu : strIncludes (lcs raw) "unsafe for ambulation" = true)
    (h8 : (extractRiskTrendData raw).length = 8) :
    ((extractRiskTrendData raw).map (fun r => r.Mobility)).getD 0 0 = 3 ∧
    ((extractRiskTrendData raw).map (fun r => r.Mobility)).getD 7 0 = 0 := by
  unfold extractRiskTrendData at h8 ⊢
  cases hA : matchAdmissionDate raw with
  | none => rw [hA] at h8; simp at h8
  | some p =>
      cases hD : matchDischargeDate raw with
      | none =>
          rw [hA, hD] at h8
          cases p
          simp at h8
      | some q =>
          cases p with
          | mk sm sd =>
              cases q with
              | mk em ed =>
                  rw [hA, hD] at h8
                  simp only [] at h8 ⊢
                  rw [gridRows_length] at h8
                  rw [gridRows_map_Mobility_getD _ _ _ _ _ _ 0 0 (by omega),
                      gridRows_map_Mobility_getD _ _ _ _ _ _ 0 7 (by omega), h8]
                  exact ⟨riskLevel_mobility_high_start _ _ _ _ hu,
                         riskLevel_mobility_high_end _ _ _ _ hu⟩

/-- Witness for C5 (amended): the concrete 8-day bedbound note. -/
theorem risk_bedbound_amended_witness :
    ((extractRiskTrendData c5note).map (fun r => r.Mobility)).getD 0 0 = 3 ∧
    ((extractRiskTrendData c5note).map (fun r => r.Mobility)).getD 7 0 = 0 :=
  risk_bedbound_amended c5note (by decide) (by decide) (by decide)


/-- C6: feeding the synthetic round-trip note through the pipeline yields
merged sections for exactly `patient_info`, `home` (from the Comorbidities
row), `er` (from the Hospital Course row), `discharge` (carrying the
Mobility content of the discharge-plan line) and `back_home` (with
`hasMeds = true`), and readiness and risk grids of exactly two rows dated
`5/4` and `5/5`. -/
theorem round_trip_scenario :
    (sections c6note).map (fun s => s.phase) =
      ["patient_info", "home", "er", "discharge", "back_home"] ∧
    ((sections c6note).filter (fun s => s.phase == "home")).map (fun s => s.content) =
      ["• Comorbidities: diabetes"] ∧
    ((sections c6note).filter (fun s => s.phase == "er")).map (fun s => s.content) =
      ["• Hospital Course: stable"] ∧
    ((sections c6note).filter (fun s => s.phase == "discharge")).map (fun s => s.content) =
      ["• Discharge Plan: Mobility: independent with walker"] ∧
    ((sections c6note).filter (fun s => s.phase == "back_home")).map (fun s => s.hasMeds) =
      [true] ∧
    (extractReadinessGrid c6note).map (fun r => r.Date) = ["5/4", "5/5"] ∧
    (extractRiskTrendData c6note).map (fun r => r.Date) = ["5/4", "5/5"] := by
  refine ⟨by decide, by decide, by decide, by decide, by decide, ?_, ?_⟩
  · unfold extractReadinessGrid
    rw [show matchAdmissionDate c6note = some (5, 4) from by decide,
        show matchDischargeDate c6note = some (5, 5) from by decide]
    simp only []
    rw [gridRows_map_Date_ready]
    decide
  · unfold extractRiskTrendData
    rw [show matchAdmissionDate c6note = some (5, 4) from by decide,
        show matchDischargeDate c6note = some (5, 5) from by decide]
    simp only []
    rw [gridRows_map_Date_risk]
    decide


/-- The two copies of the phase taxonomy are identical. -/
theorem phasesListP_eq : phasesListP = phasesList := rfl

theorem classifyP_eq : classifyP = classify := rfl

theorem expandHMAuxP_eq : ∀ (ls : List String) (b : Bool),
    expandHMAuxP b ls = expandHMAux b ls := by
  intro ls
  induction ls with
  | nil => intro b; rfl
  | cons l rest ih =>
      intro b
      simp only [expandHMAuxP, expandHMAux]
      by_cases h1 : (b && !isTerminator l && hasColon l) = true
      · simp [h1, ih]
      · by_cases h2 : isHMHeader l = true
        · simp [h1, h2, ih]
        · simp [h1, h2, ih]

theorem buildRowsAuxP_eq :
    ∀ (n : Nat) (ls : List String), ls.length ≤ n →
      ∀ (b : Bool) (acc : List SectionRow), buildRowsAuxP b acc ls = buildRowsAux b acc ls := by
  intro n
  induction n with
  | zero =>
      intro ls hls b acc
      cases ls with
      | nil => rfl
      | cons l rest => simp at hls
  | succ n ih =>
      intro ls hls b acc
      cases ls with
      | nil => rfl
      | cons line rest =>
          simp only [buildRowsAuxP, buildRowsAux, classifyP_eq]
          by_cases hm : isMRD line = true
          · simp only [hm, if_true]
            cases rest with
            | nil => rfl
            | cons x rest2 =>
                apply ih
                simp at hls
                omega
          · by_cases ha : (isAttach line && !acc.isEmpty) = true
            · simp only [hm, ha, if_false, if_true, Bool.false_eq_true]
              apply ih
              simp at hls
              omega
            · simp only [hm, ha, if_false, Bool.false_eq_true]
              apply ih
              simp at hls
              omega

theorem key_ne_nah (p : Phase) (hp : p ∈ phasesList) : (p.key == "nah") = false := by
  simp only [phasesList, List.mem_cons, List.not_mem_nil, or_false] at hp
  rcases hp with rfl | rfl | rfl | rfl | rfl | rfl <;> rfl

theorem mergeRows_proj_eq (rows : List SectionRow) :
    (mergeRows rows).map sectionProj = (mergeRowsP rows).map sectionProjP := by
  unfold mergeRows mergeRowsP
  rw [phasesListP_eq, List.map_filterMap, List.map_filterMap]
  apply List.filterMap_congr
  intro p hp
  unfold mergeF mergeFP
  by_cases h : (rows.filter (fun r => r.phase == p.key)).isEmpty = true
  · simp [h]
  · rw [Bool.not_eq_true] at h
    simp only [h]
    simp only [Bool.false_eq_true, if_false, Option.map_some, Option.some_inj]
    unfold sectionProj sectionProjP
    have hnah := key_ne_nah p hp
    simp [hnah]

/-- C9: for every raw note, the live pipeline of `usePatientData.js` and the
export parser `parseSectionsFromText` of `exportToPDF.js` produce the same
merged-section sequence: the same phases in the same order with equal
label, content and count for each merged section. -/
theorem export_pipeline_equiv (raw : String) :
    (sections raw).map sectionProj = (parseSectionsFromText raw).map sectionProjP := by
  unfold sections parseSectionsFromText sectionsRaw
  by_cases h0 : (raw == "") = true
  · simp [h0]
  · rw [Bool.not_eq_true] at h0
    simp only [h0, Bool.false_eq_true, if_false]
    rw [show expandHMP (linesOf raw) = expandHM (linesOf raw) from expandHMAuxP_eq _ false,
        buildRowsAuxP_eq (expandHM (linesOf raw)).length _ le_rfl]
    by_cases hr : (buildRowsAux false [] (expandHM (linesOf raw))).isEmpty = true
    · rw [List.isEmpty_iff] at hr
      rw [hr]
      rfl
    · rw [Bool.not_eq_true] at hr
      simp only [hr, Bool.false_eq_true, if_false]
      exact mergeRows_proj_eq _

end CAIDF
